import Mathlib

/-!
Verification development for the Intercom–Asana integration server
(`src/index.js`).  The definitions below are shallow embeddings of the
functions and handler fragments of that file: JavaScript objects become
structures, the foreign API calls become oracle parameters, and the
truthiness conventions of JavaScript are made explicit.
-/

/-- JavaScript truthiness of an optional string: `undefined`/`null` and the
empty string are falsy, every other string is truthy. -/
def jsTruthyStr : Option String → Bool
  | none => false
  | some s => s ≠ ""

/-- JavaScript `a || b` on optional strings, respecting the falsiness of the
empty string. -/
def jsOrStr (a b : Option String) : Option String :=
  if jsTruthyStr a then a else b

/-- JavaScript `String.prototype.trim` on a character list. -/
def jsTrim (l : List Char) : List Char :=
  ((l.dropWhile Char.isWhitespace).reverse.dropWhile Char.isWhitespace).reverse

/-- JavaScript `String.prototype.trim`. -/
def jsTrimStr (s : String) : String :=
  ⟨jsTrim s.data⟩

/-- JavaScript `String.prototype.toLowerCase` (on the ASCII range the
integration's labels use). -/
def jsToLower (s : String) : String :=
  ⟨s.data.map Char.toLower⟩

/-! ## Ticket states (`getTicketStateId`, `src/index.js:118-162`)

An Intercom ticket state carries an internal label, an external label, a
category and the list of ticket-type ids it applies to (id values are
compared as strings by the source: `String(type.id) === String(ticketTypeId)`). -/

structure TicketState where
  id : String
  internal_label : String
  external_label : String
  category : String
  ticket_types : List String
deriving Repr, DecidableEq

/-- Embedding of `getTicketStateId(labelOrCategory, ticketTypeId)`.  The
cached state catalog is passed explicitly.  Faithful to the source: an empty
catalog returns `null`; when a ticket-type id is given the catalog is first
filtered to the states applicable to that type; the input is lowercased and
trimmed; then the first state whose lowercased internal label matches is
used, else the first matching by external label, else by category.
`applicableStatesFor` is the ticket-type filter of `src/index.js:128-138`. -/
def applicableStatesFor (states : List TicketState) (ticketTypeId : Option String) :
    List TicketState :=
  match ticketTypeId with
  | some tid => states.filter (fun (s : TicketState) => s.ticket_types.any (fun t => t = tid))
  | none => states

def getTicketStateId (states : List TicketState) (labelOrCategory : String)
    (ticketTypeId : Option String) : Option String :=
  if states.isEmpty then none
  else
    match (applicableStatesFor states ticketTypeId).find?
        (fun (s : TicketState) => jsToLower s.internal_label = jsTrimStr (jsToLower labelOrCategory)) with
    | some s => some s.id
    | none =>
      match (applicableStatesFor states ticketTypeId).find?
          (fun (s : TicketState) => jsToLower s.external_label = jsTrimStr (jsToLower labelOrCategory)) with
      | some s => some s.id
      | none =>
        match (applicableStatesFor states ticketTypeId).find?
            (fun (s : TicketState) => jsToLower s.category = jsTrimStr (jsToLower labelOrCategory)) with
        | some s => some s.id
        | none => none

/-- The spec's wording of status-to-state resolution, written independently:
filter the catalog to the ticket type's states (when a type id is given),
then try exact match on internal label, then external label, then category,
case-insensitively with the input whitespace-trimmed, first match wins. -/
def resolveStateSpec (states : List TicketState) (labelOrCategory : String)
    (ticketTypeId : Option String) : Option String :=
  let firstMatch (key : TicketState → String) : Option String :=
    ((applicableStatesFor states ticketTypeId).find?
      (fun (s : TicketState) =>
        jsToLower (key s) = jsTrimStr (jsToLower labelOrCategory))).map TicketState.id
  (firstMatch (fun s => s.internal_label)).orElse fun _ =>
    (firstMatch (fun s => s.external_label)).orElse fun _ =>
      firstMatch (fun s => s.category)

/-! ## Status whitelist and the combined state-update write
(`whitelistStatus.js`, `updateTicketStateId`, `src/index.js:533-602`,
and the status-sync fragment of the Asana webhook, `src/index.js:2882-2901`). -/

/-- Embedding of `whitelistStatus.js`. -/
def whitelistStatus : List String :=
  ["Case Report Created (bn)", "Submitted"]

/-- The JSON body of the single `PUT /tickets/:id` issued by
`updateTicketStateId`: always the resolved state id, plus `open: false`
exactly when the caller asked to close the ticket in the same request. -/
structure TicketStatePatch where
  ticket_state_id : String
  openFlag : Option Bool
deriving Repr, DecidableEq

/-- Embedding of `updateTicketStateId(ticketId, labelOrCategory,
ticketTypeId, shouldClose)` as the list of ticket writes it issues: none
when the label resolves to no state (logged, returns false), otherwise
exactly one write whose body combines the state id with the optional
close flag. -/
def updateTicketStateIdWrites (states : List TicketState) (labelOrCategory : String)
    (ticketTypeId : Option String) (shouldClose : Bool) : List TicketStatePatch :=
  match getTicketStateId states labelOrCategory ticketTypeId with
  | none => []
  | some stateId =>
    [⟨stateId, if shouldClose then some false else none⟩]

/-- The webhook's close decision (`src/index.js:2884-2886`): close exactly
when the new status is not whitelisted and the ticket is currently open. -/
def shouldCloseTicket (ticketStatus : String) (isTicketOpen : Bool) : Bool :=
  !(whitelistStatus.contains ticketStatus) && isTicketOpen

/-- The status-sync fragment of the Asana webhook (`src/index.js:2882-2901`):
one call to `updateTicketStateId` with the close flag computed from the
whitelist and the ticket's open state. -/
def asanaStatusSyncWrites (states : List TicketState) (ticketStatus : String)
    (ticketTypeId : Option String) (isTicketOpen : Bool) : List TicketStatePatch :=
  updateTicketStateIdWrites states ticketStatus ticketTypeId
    (shouldCloseTicket ticketStatus isTicketOpen)

/-! ## Resolving a task to its conversation
(`getConversationIdFromTask`, `src/index.js:328-417`)

A custom field on an Asana task, with the value-bearing properties the
source inspects (`text_value`, `display_value`, `number_value`, and the
plain `value` property when it is a string). -/

structure AsanaTaskField where
  gid : String
  name : String
  text_value : Option String
  display_value : Option String
  number_value : Option Int
  value_str : Option String
deriving Repr, DecidableEq

/-- JavaScript `a || b` where `a` is an optional number (`0` is falsy) and
the result is coerced to the string domain of the surrounding chain. -/
def jsOrNum (a : Option Int) (b : Option String) : Option String :=
  match a with
  | some n => if n = 0 then b else some (toString n)
  | none => b

/-- The value extraction of `src/index.js:367-371`:
`field.text_value || field.display_value || field.number_value ||
(typeof field.value === 'string' ? field.value : null)`. -/
def fieldExtractValue (f : AsanaTaskField) : Option String :=
  jsOrStr f.text_value (jsOrStr f.display_value (jsOrNum f.number_value f.value_str))

/-- First lookup in an association-list model of the in-memory
`asanaTaskToConversation` map. -/
def mapLookup (m : List (String × String)) (k : String) : Option String :=
  (m.find? (fun p => p.fst = k)).map Prod.snd

/-- The per-field match of `src/index.js:360-365`: the field is accepted
when its gid equals the configured conversation-id field gid, or its name
is the literal `"Intercom Conversation ID"`. -/
def matchesConvField (conversationIdGid : Option String) (f : AsanaTaskField) : Bool :=
  (match conversationIdGid with
   | some g => f.gid = g
   | none => false)
  || f.name = "Intercom Conversation ID"

/-- Embedding of `getConversationIdFromTask(taskId)` restricted to its pure
resolution logic.  `conversationIdGid` is the startup-time value of
`ASANA_CUSTOM_FIELDS.INTERCOM_CONVERSATION_ID` (possibly still `null`).
The source makes a single pass over the task's custom fields and breaks at
the first field matching *either* by gid or by the literal name
`"Intercom Conversation ID"`, extracts that field's value, and only when
the extracted value is falsy falls back to the in-memory map. -/
def getConversationIdFromTask (conversationIdGid : Option String)
    (customFields : List AsanaTaskField)
    (memoryMap : List (String × String)) (taskId : String) : Option String :=
  let matched := customFields.find? (matchesConvField conversationIdGid)
  let fromField :=
    match matched with
    | some f => fieldExtractValue f
    | none => none
  if jsTruthyStr fromField then fromField else mapLookup memoryMap taskId

/-- The claim's wording of the lookup precedence, written independently:
first the custom field matched by field identifier, then (only if that
yielded no value) the custom field matched by field name, then (only if
that too yielded no value) the in-memory map. -/
def resolveLinkClaim (conversationIdGid : Option String)
    (customFields : List AsanaTaskField)
    (memoryMap : List (String × String)) (taskId : String) : Option String :=
  let byGid :=
    match conversationIdGid with
    | some g =>
      match customFields.find? (fun (f : AsanaTaskField) => f.gid = g) with
      | some f => fieldExtractValue f
      | none => none
    | none => none
  if jsTruthyStr byGid then byGid
  else
    let byName :=
      match customFields.find? (fun (f : AsanaTaskField) =>
          f.name = "Intercom Conversation ID") with
      | some f => fieldExtractValue f
      | none => none
    if jsTruthyStr byName then byName
    else mapLookup memoryMap taskId

/-! ## Loop guards for note/comment relays
(`/intercom-webhook`, `src/index.js:1281-1308`;
`/asana-webhook-prod` story handling, `src/index.js:2634-2645`)

The HTML stripping of `src/index.js:1295-1298` is
`body.replace(/<[^>]*>/g, '').replace(/&nbsp;/g, ' ').trim()`, modelled
character by character. -/

/-- Removal of `/<[^>]*>/g`: each `<` that is followed (not necessarily
immediately) by a `>` is deleted together with everything up to and
including that `>`; a `<` with no later `>` is kept verbatim. -/
def stripTagsFuel : Nat → List Char → List Char
  | 0, l => l
  | _ + 1, [] => []
  | fuel + 1, c :: cs =>
    if c = '<' then
      match cs.dropWhile (fun d => d ≠ '>') with
      | [] => c :: cs
      | _ :: rest => stripTagsFuel fuel rest
    else c :: stripTagsFuel fuel cs

def stripTagsAux (l : List Char) : List Char :=
  stripTagsFuel l.length l

/-- Replacement of `/&nbsp;/g` by a single space. -/
def replaceNbspFuel : Nat → List Char → List Char
  | 0, l => l
  | _ + 1, [] => []
  | fuel + 1, c :: cs =>
    if c = '&' ∧ ['n', 'b', 's', 'p', ';'].isPrefixOf cs then
      ' ' :: replaceNbspFuel fuel (cs.drop 5)
    else c :: replaceNbspFuel fuel cs

def replaceNbspAux (l : List Char) : List Char :=
  replaceNbspFuel l.length l

/-- The `plainTextBody` computation of `src/index.js:1295-1298`. -/
def stripHtml (body : String) : String :=
  ⟨jsTrim (replaceNbspAux (stripTagsAux body.data))⟩

/-- JavaScript `String.prototype.startsWith`. -/
def jsStartsWith (s t : String) : Bool :=
  t.data.isPrefixOf s.data

/-- The Intercom→Asana relay guard (`src/index.js:1283-1308`): the note is
skipped when it carries an `app_package_code` (integration-app authorship
marker), or when its stripped text begins with one of the three provenance
tags written by the Asana→Intercom and file-sync relays. -/
def intercomNoteSkip (appPackageCode : Option String) (noteBody : String) : Bool :=
  if jsTruthyStr appPackageCode then true
  else
    let plainTextBody := stripHtml noteBody
    jsStartsWith plainTextBody "[Asana Comment by"
    || jsStartsWith plainTextBody "[Asana File Sync]"
    || jsStartsWith plainTextBody "[File Sync from Intercom to Asana]"

/-- The Intercom→Asana relay decision: the comment is posted to Asana only
when the guard does not fire and the stripped body is nonempty
(`if (plainTextBody)`, `src/index.js:1311`). -/
def intercomNoteRelays (appPackageCode : Option String) (noteBody : String) : Bool :=
  !intercomNoteSkip appPackageCode noteBody && stripHtml noteBody ≠ ""

/-- A story (comment event payload) fetched from the Asana stories API.
`created_by_name` is present in the payload (the source logs it) but, as
proved below, never consulted by the relay decision. -/
structure AsanaStory where
  resource_subtype : String
  text : String
  created_by_name : Option String
deriving Repr, DecidableEq

/-- The Asana→Intercom relay guard (`src/index.js:2640-2645`): the comment
is skipped exactly when its text begins with the Intercom→Asana provenance
tag.  No authorship marker is consulted in this direction. -/
def asanaStorySkip (story : AsanaStory) : Bool :=
  jsStartsWith story.text "[Intercom Note by"

/-- The Asana→Intercom relay decision (`src/index.js:2632-2645`): only
stories that are actual comments with nonempty text are considered, and the
tag guard is the sole loop guard applied. -/
def asanaStoryRelays (story : AsanaStory) : Bool :=
  story.resource_subtype = "comment_added" && story.text ≠ ""
  && !asanaStorySkip story

/-! ## Date formatting (`formatDateForAsana`, `src/index.js:936-983`)

The source formats an instant with
`Intl.DateTimeFormat('en-US', { timeZone: 'Asia/Dhaka', ... })`, i.e. in
the fixed UTC+6 zone (Asia/Dhaka has used the +06:00 offset with no
daylight saving throughout the era relevant here), producing
`M/D/YYYY, h:mm AM/PM`.  The proleptic-Gregorian conversions below are the
standard civil-calendar algorithms over `Int` with floor division. -/

structure IntercomTicket where
  asanaTaskIdAttr : Option String
deriving Repr, DecidableEq

structure SubmitWorld where
  ticket : IntercomTicket
  createdTasks : Nat
  memoryMap : List (String × String)
deriving Repr, DecidableEq

/-- Outcomes of the three external calls a `submit_button` run performs:
fetching the ticket, creating the Asana task (`some gid` on success), and
writing the task id back to the ticket attribute. -/
structure SubmitOracle where
  fetchTicketOk : Bool
  createTaskResult : Option String
  attrWriteOk : Bool
deriving Repr, DecidableEq

/-- The externally visible recordings of the ticket↔task link made by the
handler, in execution order.  The conversation-id custom field on the task
is populated *inside the creation request itself* (`src/index.js:1956-1958`
and `2011-2013`), so it is represented as part of the creation call. -/
inductive SubmitEvent where
  | createTaskCall (conversationFieldIncluded : Bool)
  | ticketAttrUpdate (taskId : String)
  | memoryMapSet (taskId : String)
deriving Repr, DecidableEq

inductive SubmitResponse where
  | alreadyExistsCard (taskId : String)
  | taskCreatedCard (taskId : String)
  | errorCard
deriving Repr, DecidableEq

/-- Embedding of the `submit_button` branch of `/submit`: fail without a
ticket id or on a failed ticket fetch; short-circuit to the
already-exists card when the re-fetched ticket carries a truthy
`'Asana Task ID'` attribute; otherwise create the task (the creation
payload includes the conversation-id custom field exactly when that field
is configured and a conversation id is present), and on success write
the task id to the ticket attribute (`updateTicketAttribute`) and insert
the task into the in-memory map, in that order. -/
def submitCreateTask (conversationIdGid : Option String) (conversationId : String)
    (ticketId : Option String) (w : SubmitWorld) (o : SubmitOracle) :
    SubmitWorld × SubmitResponse × List SubmitEvent :=
  match ticketId with
  | none => (w, .errorCard, [])
  | some _ =>
    if !o.fetchTicketOk then (w, .errorCard, [])
    else
      let existingTaskId := w.ticket.asanaTaskIdAttr
      if jsTruthyStr existingTaskId then
        (w, .alreadyExistsCard (existingTaskId.getD ""), [])
      else
        let convFieldIncluded := conversationIdGid.isSome && conversationId ≠ ""
        match o.createTaskResult with
        | none => (w, .errorCard, [.createTaskCall convFieldIncluded])
        | some gid =>
          ({ ticket := if o.attrWriteOk then ⟨some gid⟩ else w.ticket,
             createdTasks := w.createdTasks + 1,
             memoryMap := (gid, conversationId) :: w.memoryMap },
           .taskCreatedCard gid,
           [.createTaskCall convFieldIncluded, .ticketAttrUpdate gid, .memoryMapSet gid])

/-- Does this event record the link in the task's counterpart custom
field?  (Only a creation call that included the conversation field.) -/
def isFieldRecording : SubmitEvent → Bool
  | .createTaskCall b => b
  | _ => false

/-- Does this event record the link in the ticket's attribute? -/
def isAttrRecording : SubmitEvent → Bool
  | .ticketAttrUpdate _ => true
  | _ => false

/-- Does this event record the link in the in-memory map? -/
def isMapRecording : SubmitEvent → Bool
  | .memoryMapSet _ => true
  | _ => false

/-- The order claimed by the spec for the three link recordings: ticket
attribute first, then the task's custom field, then the in-memory map. -/
def recordsInClaimOrder (events : List SubmitEvent) : Bool :=
  match events.findIdx? isAttrRecording, events.findIdx? isFieldRecording,
      events.findIdx? isMapRecording with
  | some i, some j, some k => i < j && j < k
  | _, _, _ => false

/-! ## Asana webhook handshake and acknowledgment
(`/asana-webhook-prod`, `src/index.js:2569-2587` and `2922-2925`) -/

structure AsanaWebhookResponse where
  status : Nat
  xHookSecret : Option String
  eventsProcessed : Nat
deriving Repr, DecidableEq

/-- Embedding of the top of `/asana-webhook-prod`.  `storedSecret` is the
module-level `asanaWebhookSecret` variable before the request;
`hookSecretHeader` the `x-hook-secret` request header; `bodyOutcome` the
result of the event-processing `try` block (an `error` is a raised
exception) and `eventsInBody` the number of events it handles.  The
result pairs the variable's value after the request with the HTTP
response.  On a truthy handshake header the source stores the secret,
echoes it back in the `X-Hook-Secret` response header with status 200 and
returns before touching the body; otherwise the body is processed and the
catch block turns a raised error into a 500. -/
def asanaWebhookProd (storedSecret : Option String) (hookSecretHeader : Option String)
    (eventsInBody : Nat) (bodyOutcome : Except String Unit) :
    Option String × AsanaWebhookResponse :=
  if jsTruthyStr hookSecretHeader then
    (hookSecretHeader, ⟨200, hookSecretHeader, 0⟩)
  else
    match bodyOutcome with
    | .ok _ => (storedSecret, ⟨200, none, eventsInBody⟩)
    | .error _ => (storedSecret, ⟨500, none, eventsInBody⟩)

/-! ## Intercom webhook acknowledgment (`/intercom-webhook`,
`src/index.js:1241-1593`)

The body of the handler runs inside one `try`; awaited external calls can
reject (network failure, non-JSON error body), which propagates to the
`catch` at `src/index.js:1589-1592`.  Calls whose failures the source
swallows locally (per-attachment uploads) are not oracles here. -/

/-- The `ticket.note.created` processing path, with the posting of the
comment to Asana as the one propagating external call. -/
def intercomWebhookProcess (topic : String) (hasTicketAndPart : Bool)
    (asanaTaskIdAttr : Option String) (appPackageCode : Option String)
    (noteBody : String) (postComment : Except String Bool) : Except String Unit :=
  if topic = "ticket.note.created" then
    if !hasTicketAndPart then .ok ()
    else if !jsTruthyStr asanaTaskIdAttr then .ok ()
    else if intercomNoteSkip appPackageCode noteBody then .ok ()
    else if stripHtml noteBody ≠ "" then
      match postComment with
      | .ok _ => .ok ()
      | .error e => .error e
    else .ok ()
  else .ok ()

/-- The response status of `/intercom-webhook`: 200 from the normal paths,
500 from the catch block. -/
def intercomWebhookStatus (topic : String) (hasTicketAndPart : Bool)
    (asanaTaskIdAttr : Option String) (appPackageCode : Option String)
    (noteBody : String) (postComment : Except String Bool) : Nat :=
  match intercomWebhookProcess topic hasTicketAndPart asanaTaskIdAttr
      appPackageCode noteBody postComment with
  | .ok _ => 200
  | .error _ => 500

/-! ## The sync-files submit flow
(`/submit`, `component_id 'sync_files_button'`, `src/index.js:2290-2558`) -/

structure FileObj where
  url : Option String
deriving Repr, DecidableEq

/-- The shapes of an Intercom ticket-attribute value inspected by
`extractAttachmentUrls` (`src/index.js:986-1024`). -/
inductive FieldValue where
  | absent
  | fileList (files : List FileObj)
  | fileObject (f : FileObj)
  | stringValue (s : String)
deriving Repr, DecidableEq

/-- Split a character list at the first occurrence of `sep`; `none` when
`sep` does not occur. -/
def splitFirst (sep : Char) : List Char → Option (List Char × List Char)
  | [] => none
  | c :: cs =>
    if c = sep then some ([], cs)
    else
      match splitFirst sep cs with
      | some (a, b) => some (c :: a, b)
      | none => none

/-- A WHATWG forbidden host code point (controls, space, `#`, `/`, `:`,
`<`, `>`, `?`, `@`, `[`, `\`, `]`, `^`, `|`, and `%`, which is forbidden
in the domains of special schemes). -/
def forbiddenHostChar (c : Char) : Bool :=
  c.toNat ≤ 0x20 ∨ c = '#' ∨ c = '/' ∨ c = ':' ∨ c = '<' ∨ c = '>' ∨ c = '?'
  ∨ c = '@' ∨ c = '[' ∨ c = '\\' ∨ c = ']' ∨ c = '^' ∨ c = '|' ∨ c = '%'
  ∨ c.toNat = 0x7f

/-- Decimal value of an all-digit port string. -/
def portVal (p : List Char) : Nat :=
  p.foldl (fun a c => a * 10 + (c.toNat - 48)) 0

/-- Embedding of `isValidUrl` (`src/index.js:925-932`): `new URL(string)`
succeeds and its protocol is `http:` or `https:`.  Models the WHATWG parse
of the special http/https schemes: a case-insensitive `http`/`https`
scheme before the first `:`, then any run of slashes or backslashes
(including none: `http:x` parses as host `x`), an optional userinfo part
up to the last `@`, a nonempty host free of forbidden host characters,
and an optional all-digit port of value at most 65535; path, query and
fragment are unconstrained.  (IDNA host normalisation, IPv6 bracket hosts
and percent-encoding validation are not modelled.) -/
def isValidUrl (s : String) : Bool :=
  match splitFirst ':' s.data with
  | none => false
  | some (schemeCs, rest) =>
    let scheme := schemeCs.map Char.toLower
    if scheme = "http".data ∨ scheme = "https".data then
      let afterSlashes := rest.dropWhile (fun c => c = '/' ∨ c = '\\')
      let authority := afterSlashes.takeWhile
        (fun c => ¬(c = '/' ∨ c = '\\' ∨ c = '?' ∨ c = '#'))
      let hostPort := (authority.reverse.takeWhile (fun c => c ≠ '@')).reverse
      match splitFirst ':' hostPort with
      | none => hostPort ≠ [] && hostPort.all (fun c => !forbiddenHostChar c)
      | some (host, port) =>
        host ≠ [] && host.all (fun c => !forbiddenHostChar c)
          && port.all Char.isDigit && portVal port ≤ 65535
    else false

/-- Embedding of `extractAttachmentUrls(fieldValue, fieldName)`: a
non-empty array contributes the truthy `url` of each element; a single
file object its truthy `url`; a string only when it is a valid URL;
everything else nothing. -/
def extractAttachmentUrls : FieldValue → List String
  | .absent => []
  | .fileList files =>
    if files.length > 0 then
      files.filterMap (fun (f : FileObj) => if jsTruthyStr f.url then f.url else none)
    else []
  | .fileObject f => if jsTruthyStr f.url then [f.url.getD ""] else []
  | .stringValue s => if isValidUrl s then [s] else []

/-- The JavaScript falsiness test guarding the no-files card
(`src/index.js:2317`): `!value || (Array.isArray(value) && value.length === 0)`. -/
def fieldFalsyOrEmptyList : FieldValue → Bool
  | .absent => true
  | .fileList files => files.length = 0
  | .fileObject _ => false
  | .stringValue s => s = ""

structure SyncFilesTicket where
  asanaTaskIdAttr : Option String
  intercomToAsana : FieldValue
deriving Repr, DecidableEq

inductive SyncFilesWrite where
  | uploadAttachment (url : String)
  | postNoteWithAttachments (urls : List String)
  | clearIntercomToAsana
deriving Repr, DecidableEq

inductive SyncFilesResponse where
  | syncSuccessCard (successCount total : Nat)
  | noFilesCard
  | errorCard
deriving Repr, DecidableEq

/-- The original URLs of the files whose upload returned a truthy
permanent URL (`uploadedFiles.map(f => f.url)`, `src/index.js:2377-2399`). -/
def syncSuccessUrls (fileUrls : List String) (uploadResult : Nat → Option String) :
    List String :=
  (fileUrls.enum.filter (fun p => jsTruthyStr (uploadResult p.fst))).map Prod.snd

/-- Embedding of the `sync_files_button` branch: fetch the ticket, require
a linked Asana task, short-circuit to the no-files card on a falsy or
empty `'Intercom to Asana'` attribute, fail when no valid URL can be
extracted; otherwise upload each URL (`uploadResult i` is the permanent
URL returned for the `i`-th file, `none` on failure — the source's
`uploadAttachmentToAsana` traps its own errors and returns `null`).  When
at least one upload succeeded, one note carrying the synced URLs is posted
to the conversation: this awaited call (`src/index.js:2407-2429`) has no
local catch, so its rejection (`notePostResult = .error`) propagates to
the handler's catch at `src/index.js:2515` and the handler aborts to the
error card *before* the clearing write; a resolved call continues even
when the response is not ok (`.ok false`, logged only).  Only then is the
clearing `PUT` issued (`src/index.js:2438-2454`); its own outcome
(`clearResult`) decides between the success card and the error card but
the write itself has been issued either way.  The second component lists
the requests the handler issues, in order. -/
def syncFiles (ticketId : Option String) (fetchOk : Bool) (ticket : SyncFilesTicket)
    (uploadResult : Nat → Option String) (notePostResult clearResult : Except String Bool) :
    SyncFilesResponse × List SyncFilesWrite :=
  match ticketId with
  | none => (.errorCard, [])
  | some _ =>
    if !fetchOk then (.errorCard, [])
    else if !jsTruthyStr ticket.asanaTaskIdAttr then (.errorCard, [])
    else if fieldFalsyOrEmptyList ticket.intercomToAsana then (.noFilesCard, [])
    else
      let fileUrls := extractAttachmentUrls ticket.intercomToAsana
      if fileUrls.length = 0 then (.errorCard, [])
      else
        let uploadWrites := fileUrls.map SyncFilesWrite.uploadAttachment
        let successUrls := syncSuccessUrls fileUrls uploadResult
        if successUrls.length > 0 then
          match notePostResult with
          | .error _ =>
            (.errorCard,
             uploadWrites ++ [SyncFilesWrite.postNoteWithAttachments successUrls])
          | .ok _ =>
            match clearResult with
            | .error _ =>
              (.errorCard,
               uploadWrites ++ [SyncFilesWrite.postNoteWithAttachments successUrls]
                 ++ [SyncFilesWrite.clearIntercomToAsana])
            | .ok _ =>
              (.syncSuccessCard successUrls.length fileUrls.length,
               uploadWrites ++ [SyncFilesWrite.postNoteWithAttachments successUrls]
                 ++ [SyncFilesWrite.clearIntercomToAsana])
        else
          match clearResult with
          | .error _ =>
            (.errorCard, uploadWrites ++ [SyncFilesWrite.clearIntercomToAsana])
          | .ok _ =>
            (.syncSuccessCard successUrls.length fileUrls.length,
             uploadWrites ++ [SyncFilesWrite.clearIntercomToAsana])

/-! ## Theorems -/

/-- Helper: the nested-match fallback chain of `getTicketStateId` equals the
`orElse` composition used by the spec-side formulation. -/
theorem chain_eq_orElse (A : List TicketState) (inp : String) :
    (match A.find? (fun (s : TicketState) => jsToLower s.internal_label = inp) with
     | some s => some s.id
     | none =>
       match A.find? (fun (s : TicketState) => jsToLower s.external_label = inp) with
       | some s => some s.id
       | none =>
         match A.find? (fun (s : TicketState) => jsToLower s.category = inp) with
         | some s => some s.id
         | none => none) =
    ((A.find? (fun (s : TicketState) => jsToLower s.internal_label = inp)).map TicketState.id).orElse
      (fun _ => ((A.find? (fun (s : TicketState) => jsToLower s.external_label = inp)).map
          TicketState.id).orElse
        (fun _ => (A.find? (fun (s : TicketState) => jsToLower s.category = inp)).map
          TicketState.id)) := by
  cases A.find? (fun (s : TicketState) => jsToLower s.internal_label = inp) <;>
    cases A.find? (fun (s : TicketState) => jsToLower s.external_label = inp) <;>
      cases A.find? (fun (s : TicketState) => jsToLower s.category = inp) <;>
        simp [Option.orElse]

/-- C3: status-to-state resolution filters the catalog to the ticket type's
states (when a type id is given) and then tries exact match on internal
label, then external label, then category, case-insensitively with the
input whitespace-trimmed, returning the first match's id; when nothing
matches it returns no state and the status sync issues no write (a logged
no-op, not an error); being a pure function of the label and catalog, the
result is deterministic. -/
theorem getTicketStateId_follows_spec_resolution (states : List TicketState)
    (label : String) (tid : Option String) :
    getTicketStateId states label tid = resolveStateSpec states label tid
    ∧ (getTicketStateId states label tid = none →
        ∀ isTicketOpen : Bool, asanaStatusSyncWrites states label tid isTicketOpen = []) := by
  constructor
  · by_cases h : states.isEmpty
    · have hnil : states = [] := by
        cases states with
        | nil => rfl
        | cons a l => simp [List.isEmpty] at h
      subst hnil
      cases tid <;> rfl
    · simp only [getTicketStateId, resolveStateSpec, if_neg h]
      exact chain_eq_orElse _ _
  · intro hnone isTicketOpen
    simp [asanaStatusSyncWrites, updateTicketStateIdWrites, hnone]

/-- C3 witness: a concrete catalog in which the label matches no state, so
resolution returns no state and the status sync issues no write. -/
theorem getTicketStateId_follows_spec_resolution_witness :
    getTicketStateId [⟨"st1", "Open", "Open", "submitted", ["7"]⟩] "zzz" (some "7") = none
    ∧ asanaStatusSyncWrites [⟨"st1", "Open", "Open", "submitted", ["7"]⟩] "zzz" (some "7") true = [] :=
  ⟨by decide,
   (getTicketStateId_follows_spec_resolution
      [⟨"st1", "Open", "Open", "submitted", ["7"]⟩] "zzz" (some "7")).2 (by decide) true⟩

/-- C4: when an inbound status change resolves to a state id, the update is
one single write; its body carries both the state id and `open: false` when
the label is not whitelisted and the ticket is open, and only the state id
when the label is whitelisted or the ticket is already closed. -/
theorem updateTicketStateId_single_combined_write (states : List TicketState)
    (ticketStatus : String) (tid : Option String) (isTicketOpen : Bool) (stateId : String)
    (hresolve : getTicketStateId states ticketStatus tid = some stateId) :
    (whitelistStatus.contains ticketStatus = false → isTicketOpen = true →
      asanaStatusSyncWrites states ticketStatus tid isTicketOpen = [⟨stateId, some false⟩])
    ∧ (whitelistStatus.contains ticketStatus = true ∨ isTicketOpen = false →
      asanaStatusSyncWrites states ticketStatus tid isTicketOpen = [⟨stateId, none⟩]) := by
  constructor
  · intro hw ho
    unfold asanaStatusSyncWrites updateTicketStateIdWrites shouldCloseTicket
    rw [hresolve, hw, ho]
    simp
  · intro hcase
    unfold asanaStatusSyncWrites updateTicketStateIdWrites shouldCloseTicket
    rw [hresolve]
    rcases hcase with hw | ho
    · rw [hw]
      simp
    · rw [ho]
      simp

/-- C4 witness: a non-whitelisted status on an open ticket yields the one
combined write; a whitelisted status yields the one state-only write. -/
theorem updateTicketStateId_single_combined_write_witness :
    asanaStatusSyncWrites [⟨"s1", "In Progress", "In Progress", "in_progress", ["7"]⟩]
      "In Progress" (some "7") true = [⟨"s1", some false⟩]
    ∧ asanaStatusSyncWrites [⟨"s2", "Submitted", "Submitted", "submitted", ["7"]⟩]
      "Submitted" (some "7") true = [⟨"s2", none⟩] :=
  ⟨(updateTicketStateId_single_combined_write
      [⟨"s1", "In Progress", "In Progress", "in_progress", ["7"]⟩]
      "In Progress" (some "7") true "s1" (by decide)).1 (by decide) rfl,
   (updateTicketStateId_single_combined_write
      [⟨"s2", "Submitted", "Submitted", "submitted", ["7"]⟩]
      "Submitted" (some "7") true "s2" (by decide)).2 (Or.inl (by decide))⟩

/-- C5 counterexample: with the conversation-id field configured as gid
`"222"`, a task whose first custom field matches only by name (value `"A"`)
and whose second matches by gid (value `"B"`) resolves to `"A"` in the
source, while the claimed identifier-first precedence would give `"B"`:
the source does not try all identifier matches before name matches. -/
theorem getConversationIdFromTask_gid_precedence_counterexample :
    getConversationIdFromTask (some "222")
      [⟨"111", "Intercom Conversation ID", some "A", none, none, none⟩,
       ⟨"222", "Other", some "B", none, none, none⟩] [] "task1" = some "A"
    ∧ resolveLinkClaim (some "222")
      [⟨"111", "Intercom Conversation ID", some "A", none, none, none⟩,
       ⟨"222", "Other", some "B", none, none, none⟩] [] "task1" = some "B"
    ∧ some "A" ≠ some "B" :=
  ⟨by decide, by decide, by decide⟩

/-- C5 (amended): task→conversation resolution makes a single pass over the
task's custom fields, stopping at the first field that matches either by
the configured field identifier or by the field name; the in-memory map is
consulted exactly when that pass yields no truthy value, and when neither
store yields a value the resolution returns no conversation. -/
theorem getConversationIdFromTask_single_pass (conversationIdGid : Option String)
    (customFields : List AsanaTaskField) (memoryMap : List (String × String))
    (taskId : String) :
    (∀ f : AsanaTaskField,
      customFields.find? (matchesConvField conversationIdGid) = some f →
      jsTruthyStr (fieldExtractValue f) = true →
      getConversationIdFromTask conversationIdGid customFields memoryMap taskId
        = fieldExtractValue f)
    ∧ (∀ f : AsanaTaskField,
      customFields.find? (matchesConvField conversationIdGid) = some f →
      jsTruthyStr (fieldExtractValue f) = false →
      getConversationIdFromTask conversationIdGid customFields memoryMap taskId
        = mapLookup memoryMap taskId)
    ∧ (customFields.find? (matchesConvField conversationIdGid) = none →
      getConversationIdFromTask conversationIdGid customFields memoryMap taskId
        = mapLookup memoryMap taskId)
    ∧ (customFields.find? (matchesConvField conversationIdGid) = none →
      mapLookup memoryMap taskId = none →
      getConversationIdFromTask conversationIdGid customFields memoryMap taskId = none) := by
  refine ⟨?_, ?_, ?_, ?_⟩
  · intro f hfind htruthy
    unfold getConversationIdFromTask
    rw [hfind]
    simp [htruthy]
  · intro f hfind hfalsy
    unfold getConversationIdFromTask
    rw [hfind]
    simp [hfalsy]
  · intro hfind
    unfold getConversationIdFromTask
    rw [hfind]
    simp [jsTruthyStr]
  · intro hfind hmap
    unfold getConversationIdFromTask
    rw [hfind]
    simp [jsTruthyStr, hmap]

/-- C5 witness: with no matching field and an empty map, resolution yields
no conversation. -/
theorem getConversationIdFromTask_single_pass_witness :
    getConversationIdFromTask (some "222")
      [⟨"999", "Unrelated", some "x", none, none, none⟩] [] "task9" = none :=
  (getConversationIdFromTask_single_pass (some "222")
    [⟨"999", "Unrelated", some "x", none, none, none⟩] [] "task9").2.2.2
    (by decide) (by decide)

/-- C2 counterexample: in the Asana→Intercom direction a comment carrying
an integration authorship marker (its `created_by` names the integration
app) is still relayed — no authorship-marker guard exists in that
direction, refuting the claim that both guards are applied in each
direction. -/
theorem asanaStoryRelays_ignores_authorship_counterexample :
    asanaStoryRelays ⟨"comment_added", "hello from the integration",
      some "Intercom Integration App"⟩ = true :=
  by decide

/-- C2 (amended): in the Intercom→Asana direction both guards apply — an
event with an integration-app authorship marker is unconditionally
skipped, and a note whose stripped text begins with any of the three
opposite-direction provenance tags is skipped; in the Asana→Intercom
direction only the tag guard applies (the relay decision is independent of
the authorship marker); in both directions a note that begins with the
provenance tag written by the opposite relay is never relayed again. -/
theorem loop_guards_by_direction (appPackageCode : Option String) (noteBody : String)
    (story : AsanaStory) (marker : Option String) :
    (jsTruthyStr appPackageCode = true → intercomNoteSkip appPackageCode noteBody = true)
    ∧ (jsStartsWith (stripHtml noteBody) "[Asana Comment by" = true →
        intercomNoteRelays appPackageCode noteBody = false)
    ∧ (jsStartsWith (stripHtml noteBody) "[Asana File Sync]" = true →
        intercomNoteRelays appPackageCode noteBody = false)
    ∧ (jsStartsWith (stripHtml noteBody) "[File Sync from Intercom to Asana]" = true →
        intercomNoteRelays appPackageCode noteBody = false)
    ∧ (jsStartsWith story.text "[Intercom Note by" = true →
        asanaStoryRelays story = false)
    ∧ (asanaStoryRelays ⟨story.resource_subtype, story.text, marker⟩
        = asanaStoryRelays story) := by
  refine ⟨?_, ?_, ?_, ?_, ?_, ?_⟩
  · intro happ
    unfold intercomNoteSkip
    rw [happ]
    rfl
  · intro htag
    simp only [intercomNoteRelays, intercomNoteSkip, htag]
    cases h : jsTruthyStr appPackageCode <;> simp
  · intro htag
    simp only [intercomNoteRelays, intercomNoteSkip, htag]
    cases h : jsTruthyStr appPackageCode <;> simp
  · intro htag
    simp only [intercomNoteRelays, intercomNoteSkip, htag]
    cases h : jsTruthyStr appPackageCode <;> simp
  · intro htag
    unfold asanaStoryRelays asanaStorySkip
    rw [htag]
    simp
  · unfold asanaStoryRelays asanaStorySkip
    rfl

/-- C2 witness: an app-marked Intercom note is skipped; a note whose HTML
strips to an `[Asana Comment by`-tagged text is not relayed back to Asana;
an Asana comment beginning with `[Intercom Note by` is not relayed back to
Intercom. -/
theorem loop_guards_by_direction_witness :
    intercomNoteSkip (some "app-pkg-1") "hi there" = true
    ∧ intercomNoteRelays none "<b>[Asana Comment by Dana]</b> round trip" = false
    ∧ asanaStoryRelays ⟨"comment_added", "[Intercom Note by Sam]\nround trip", none⟩ = false :=
  ⟨(loop_guards_by_direction (some "app-pkg-1") "hi there"
      ⟨"comment_added", "x", none⟩ none).1 (by decide),
   (loop_guards_by_direction none "<b>[Asana Comment by Dana]</b> round trip"
      ⟨"comment_added", "x", none⟩ none).2.1 (by decide),
   (loop_guards_by_direction none "x"
      ⟨"comment_added", "[Intercom Note by Sam]\nround trip", none⟩ none).2.2.2.2.1
     (by decide)⟩

/-- C1: a create-task submit on a ticket whose `'Asana Task ID'` attribute
is already set short-circuits to the already-exists card carrying the
existing task id and performs no external call at all (in particular no
task creation); consequently, invoking create-task twice in sequence on an
unlinked ticket — the first run's creation and attribute write succeeding —
creates exactly one task, and the second run returns the existing id. -/
theorem submit_create_task_idempotent (conversationIdGid : Option String)
    (conversationId ticketKey existing gid : String) (w : SubmitWorld)
    (o o1 o2 : SubmitOracle) :
    (w.ticket.asanaTaskIdAttr = some existing → existing ≠ "" → o.fetchTicketOk = true →
      submitCreateTask conversationIdGid conversationId (some ticketKey) w o
        = (w, .alreadyExistsCard existing, []))
    ∧ (w.ticket.asanaTaskIdAttr = none → o1.fetchTicketOk = true →
       o1.createTaskResult = some gid → gid ≠ "" → o1.attrWriteOk = true →
       o2.fetchTicketOk = true →
       (submitCreateTask conversationIdGid conversationId (some ticketKey)
          (submitCreateTask conversationIdGid conversationId (some ticketKey) w o1).1
          o2)
         = ((submitCreateTask conversationIdGid conversationId (some ticketKey) w o1).1,
            .alreadyExistsCard gid, [])
       ∧ (submitCreateTask conversationIdGid conversationId (some ticketKey) w o1).1.createdTasks
         = w.createdTasks + 1) := by
  constructor
  · intro hattr hne hfetch
    unfold submitCreateTask
    rw [hattr, hfetch]
    simp [jsTruthyStr, hne]
  · intro hattr hfetch1 hcreate hgid hwrite hfetch2
    have hrun1 : (submitCreateTask conversationIdGid conversationId (some ticketKey) w o1)
        = ({ ticket := ⟨some gid⟩, createdTasks := w.createdTasks + 1,
             memoryMap := (gid, conversationId) :: w.memoryMap },
           .taskCreatedCard gid,
           [.createTaskCall (conversationIdGid.isSome && conversationId ≠ ""),
            .ticketAttrUpdate gid, .memoryMapSet gid]) := by
      unfold submitCreateTask
      rw [hfetch1, hattr, hcreate, hwrite]
      simp [jsTruthyStr]
    constructor
    · rw [hrun1]
      unfold submitCreateTask
      rw [hfetch2]
      simp [jsTruthyStr, hgid]
    · rw [hrun1]

/-- C1 witness: on a fresh unlinked world, a successful create followed by
a second submit yields the already-exists card with the created task's id,
an empty second event list, and exactly one created task. -/
theorem submit_create_task_idempotent_witness :
    (submitCreateTask (some "CF") "c1" (some "T1")
      (submitCreateTask (some "CF") "c1" (some "T1") ⟨⟨none⟩, 0, []⟩ ⟨true, some "g1", true⟩).1
      ⟨true, none, true⟩)
      = ((submitCreateTask (some "CF") "c1" (some "T1") ⟨⟨none⟩, 0, []⟩ ⟨true, some "g1", true⟩).1,
         .alreadyExistsCard "g1", [])
    ∧ (submitCreateTask (some "CF") "c1" (some "T1") ⟨⟨none⟩, 0, []⟩
        ⟨true, some "g1", true⟩).1.createdTasks = 1 :=
  (submit_create_task_idempotent (some "CF") "c1" "T1" "x" "g1" ⟨⟨none⟩, 0, []⟩
    ⟨true, some "g1", true⟩ ⟨true, some "g1", true⟩ ⟨true, none, true⟩).2
    rfl rfl rfl (by decide) rfl rfl

/-- C6 counterexample: on a successful creation with the conversation-id
field configured, all three link recordings occur, but the task's custom
field is populated inside the creation call — before the ticket-attribute
write — so the order claimed (ticket attribute first, then task field,
then map) does not hold on the recorded trace. -/
theorem link_recording_order_counterexample :
    (submitCreateTask (some "CF1") "c1" (some "T1") ⟨⟨none⟩, 0, []⟩
        ⟨true, some "g1", true⟩).2.2
      = [.createTaskCall true, .ticketAttrUpdate "g1", .memoryMapSet "g1"]
    ∧ (([SubmitEvent.createTaskCall true, .ticketAttrUpdate "g1",
         .memoryMapSet "g1"].findIdx? isAttrRecording).isSome
       ∧ ([SubmitEvent.createTaskCall true, .ticketAttrUpdate "g1",
           .memoryMapSet "g1"].findIdx? isFieldRecording).isSome
       ∧ ([SubmitEvent.createTaskCall true, .ticketAttrUpdate "g1",
           .memoryMapSet "g1"].findIdx? isMapRecording).isSome)
    ∧ recordsInClaimOrder [.createTaskCall true, .ticketAttrUpdate "g1",
        .memoryMapSet "g1"] = false :=
  ⟨by decide, ⟨by decide, by decide, by decide⟩, by decide⟩

/-- C6 (amended): on every successful task creation the link is recorded
three times, in this order: the counterpart custom field on the task is
populated as part of the creation request itself (when the field is
configured and a conversation id is present), then the new task id is
written to the ticket's link attribute, then the in-memory fallback map
receives the entry. -/
theorem submit_records_link_three_times (conversationIdGid : Option String)
    (conversationId ticketKey gid : String) (w : SubmitWorld) (o : SubmitOracle)
    (hattr : w.ticket.asanaTaskIdAttr = none) (hfetch : o.fetchTicketOk = true)
    (hcreate : o.createTaskResult = some gid)
    (hcfg : conversationIdGid.isSome = true) (hconv : conversationId ≠ "") :
    (submitCreateTask conversationIdGid conversationId (some ticketKey) w o).2.2
      = [.createTaskCall true, .ticketAttrUpdate gid, .memoryMapSet gid] := by
  unfold submitCreateTask
  rw [hfetch, hattr, hcreate]
  simp [jsTruthyStr, hcfg, hconv]

/-- C6 witness: a concrete successful creation records the trace
creation-with-field, attribute write, map insert. -/
theorem submit_records_link_three_times_witness :
    (submitCreateTask (some "CF1") "c9" (some "T9") ⟨⟨none⟩, 4, []⟩
        ⟨true, some "g9", false⟩).2.2
      = [.createTaskCall true, .ticketAttrUpdate "g9", .memoryMapSet "g9"] :=
  submit_records_link_three_times (some "CF1") "c9" "T9" "g9" ⟨⟨none⟩, 4, []⟩
    ⟨true, some "g9", false⟩ rfl rfl rfl rfl (by decide)

/-- C7 counterexample: the handshake stores the received secret in the
process-wide `asanaWebhookSecret` variable, so the secret *is* cached
beyond the single request/response pair: after a handshake on a fresh
process the variable is no longer empty. -/
theorem asanaWebhookSecret_cached_counterexample :
    (asanaWebhookProd none (some "secret1") 3 (Except.ok ())).fst = some "secret1"
    ∧ (some "secret1" : Option String) ≠ none :=
  ⟨by decide, by decide⟩

/-- C7 (amended): a request carrying a (nonempty) verification-secret
header is answered with status 200 echoing the identical secret through
the same header, and the handler returns before processing any event in
the body; the secret is, however, stored in the process-wide
`asanaWebhookSecret` variable. -/
theorem asana_webhook_handshake (storedSecret : Option String) (s : String)
    (eventsInBody : Nat) (bodyOutcome : Except String Unit) (hs : s ≠ "") :
    asanaWebhookProd storedSecret (some s) eventsInBody bodyOutcome
      = (some s, ⟨200, some s, 0⟩) := by
  unfold asanaWebhookProd
  simp [jsTruthyStr, hs]

/-- C7 witness: a concrete handshake echoes its secret with status 200 and
zero events processed even when body processing would have failed. -/
theorem asana_webhook_handshake_witness :
    asanaWebhookProd none (some "secret2") 5 (Except.error "boom")
      = (some "secret2", ⟨200, some "secret2", 0⟩) :=
  asana_webhook_handshake none "secret2" 5 (Except.error "boom") (by decide)

/-- C9 counterexample: when processing of a relayable note raises (here the
comment-posting call rejects), the Intercom webhook's catch block responds
with status 500 — a 5xx, not a response card or 200 acknowledgment. -/
theorem webhook_500_on_error_counterexample :
    intercomWebhookStatus "ticket.note.created" true (some "task1") none "hello"
      (Except.error "network failure") = 500
    ∧ (500 : Nat) ≠ 200 :=
  ⟨by decide, by decide⟩

/-- C9 (amended): every request receives exactly one response and no path
terminates the process, but the webhook handlers are not 5xx-free: each
answers 200 when its body processing succeeds and 500 exactly when it
raises, while the submit handler always answers with a response card
(already-exists, created, or error). -/
theorem handlers_always_respond (topic : String) (hasTicketAndPart : Bool)
    (asanaTaskIdAttr appPackageCode : Option String) (noteBody : String)
    (postComment : Except String Bool) (storedSecret hookSecretHeader : Option String)
    (eventsInBody : Nat) (bodyOutcome : Except String Unit)
    (conversationIdGid : Option String) (conversationId : String)
    (ticketId : Option String) (w : SubmitWorld) (o : SubmitOracle) :
    (intercomWebhookStatus topic hasTicketAndPart asanaTaskIdAttr appPackageCode
        noteBody postComment = 200
      ∨ intercomWebhookStatus topic hasTicketAndPart asanaTaskIdAttr appPackageCode
        noteBody postComment = 500)
    ∧ ((asanaWebhookProd storedSecret hookSecretHeader eventsInBody bodyOutcome).2.status = 200
      ∨ (asanaWebhookProd storedSecret hookSecretHeader eventsInBody bodyOutcome).2.status = 500)
    ∧ (intercomWebhookStatus topic hasTicketAndPart asanaTaskIdAttr appPackageCode
        noteBody postComment = 500
      ↔ ∃ e, intercomWebhookProcess topic hasTicketAndPart asanaTaskIdAttr appPackageCode
          noteBody postComment = Except.error e)
    ∧ ((asanaWebhookProd storedSecret hookSecretHeader eventsInBody bodyOutcome).2.status = 500
      ↔ jsTruthyStr hookSecretHeader = false ∧ ∃ e, bodyOutcome = Except.error e)
    ∧ ((submitCreateTask conversationIdGid conversationId ticketId w o).2.1 = .errorCard
      ∨ ∃ t : String,
          (submitCreateTask conversationIdGid conversationId ticketId w o).2.1
            = .alreadyExistsCard t
        ∨ (submitCreateTask conversationIdGid conversationId ticketId w o).2.1
            = .taskCreatedCard t) := by
  refine ⟨?_, ?_, ?_, ?_, ?_⟩
  · unfold intercomWebhookStatus
    cases intercomWebhookProcess topic hasTicketAndPart asanaTaskIdAttr appPackageCode
        noteBody postComment <;> simp
  · unfold asanaWebhookProd
    by_cases h : jsTruthyStr hookSecretHeader
    · simp [h]
    · cases bodyOutcome <;> simp [h]
  · unfold intercomWebhookStatus
    cases intercomWebhookProcess topic hasTicketAndPart asanaTaskIdAttr appPackageCode
        noteBody postComment <;> simp
  · unfold asanaWebhookProd
    by_cases h : jsTruthyStr hookSecretHeader
    · simp [h]
    · cases bodyOutcome <;> simp [h]
  · unfold submitCreateTask
    cases ticketId with
    | none => simp
    | some tk =>
      by_cases hf : o.fetchTicketOk
      · by_cases he : jsTruthyStr w.ticket.asanaTaskIdAttr
        · simp [hf, he]
        · cases hc : o.createTaskResult <;> simp [hf, he, hc]
      · simp [hf]

/-- Helper: a field value from which at least one attachment URL is
extracted is neither falsy nor an empty list. -/
theorem extract_nonempty_not_falsy (v : FieldValue)
    (h : extractAttachmentUrls v ≠ []) : fieldFalsyOrEmptyList v = false := by
  cases v with
  | absent => exact absurd rfl h
  | fileList files =>
    by_cases hl : files.length > 0
    · simp only [fieldFalsyOrEmptyList, decide_eq_false_iff_not]
      omega
    · exfalso
      apply h
      simp [extractAttachmentUrls, hl]
  | fileObject f => rfl
  | stringValue s =>
    by_cases hs : s = ""
    · subst hs
      exact absurd rfl h
    · simp [fieldFalsyOrEmptyList, hs]

/-- C10 counterexample: on a linked ticket with one valid file URL whose
upload succeeds, a rejection of the awaited note-posting call aborts the
handler at its catch before the clearing `PUT` is reached, so the writes
end with the note post and the clear is never issued — the clearing
update is not unconditional. -/
theorem syncFiles_note_failure_skips_clear_counterexample :
    (syncFiles (some "T1") true
        ⟨some "g1", .fileList [⟨some "http://files.example/a.png"⟩]⟩
        (fun _ => some "https://asana.example/perm/a.png")
        (Except.error "network failure") (Except.ok true)).2
      = [.uploadAttachment "http://files.example/a.png",
         .postNoteWithAttachments ["http://files.example/a.png"]]
    ∧ SyncFilesWrite.clearIntercomToAsana
        ∉ [SyncFilesWrite.uploadAttachment "http://files.example/a.png",
           .postNoteWithAttachments ["http://files.example/a.png"]]
    ∧ (syncFiles (some "T1") true
        ⟨some "g1", .fileList [⟨some "http://files.example/a.png"⟩]⟩
        (fun _ => some "https://asana.example/perm/a.png")
        (Except.error "network failure") (Except.ok true)).1
      = .errorCard :=
  ⟨by decide, by decide, by decide⟩

/-- C10 (amended): on a sync-files submit on a linked ticket whose
`'Intercom to Asana'` attribute yields at least one file URL, the clearing
write that sets the attribute to the empty list is issued on every path on
which the note-posting step completes: always when zero of the attempted
uploads succeeded (the note post is skipped entirely, so files that failed
to upload are removed from the source field), and when at least one upload
succeeded provided the note-posting call does not raise; a raised
note-posting call aborts the handler to the error card before the clear. -/
theorem syncFiles_clears_field (ticketKey : String) (fetchOk : Bool)
    (ticket : SyncFilesTicket) (uploadResult : Nat → Option String)
    (notePostResult clearResult : Except String Bool)
    (hlink : jsTruthyStr ticket.asanaTaskIdAttr = true)
    (hurls : extractAttachmentUrls ticket.intercomToAsana ≠ [])
    (hfetch : fetchOk = true) :
    ((∀ i : Nat, jsTruthyStr (uploadResult i) = false) →
      SyncFilesWrite.clearIntercomToAsana
        ∈ (syncFiles (some ticketKey) fetchOk ticket uploadResult
            notePostResult clearResult).2)
    ∧ (∀ b : Bool, notePostResult = Except.ok b →
      SyncFilesWrite.clearIntercomToAsana
        ∈ (syncFiles (some ticketKey) fetchOk ticket uploadResult
            notePostResult clearResult).2) := by
  have hfalsy : fieldFalsyOrEmptyList ticket.intercomToAsana = false :=
    extract_nonempty_not_falsy _ hurls
  have hlen : (extractAttachmentUrls ticket.intercomToAsana).length ≠ 0 := by
    intro h
    exact hurls (List.length_eq_zero.mp h)
  constructor
  · intro hfail
    have hsucc : syncSuccessUrls (extractAttachmentUrls ticket.intercomToAsana)
        uploadResult = [] := by
      unfold syncSuccessUrls
      have hfilter : (extractAttachmentUrls ticket.intercomToAsana).enum.filter
          (fun p => jsTruthyStr (uploadResult p.fst)) = [] := by
        apply List.filter_eq_nil_iff.mpr
        intro p hp
        simp [hfail p.fst]
      rw [hfilter]
      rfl
    unfold syncFiles
    rw [hfetch, hlink, hfalsy]
    simp only [hsucc]
    cases clearResult <;> simp [hlen]
  · intro b hnote
    unfold syncFiles
    rw [hfetch, hlink, hfalsy, hnote]
    by_cases hpos : (syncSuccessUrls (extractAttachmentUrls ticket.intercomToAsana)
        uploadResult).length > 0
    · cases clearResult <;> simp [hlen, hpos]
    · cases clearResult <;> simp [hlen, hpos]

/-- C10 witness: one file, its upload fails, the note-posting call would
even have rejected — yet the note post is skipped and the writes are the
failed upload followed by the clearing of the field. -/
theorem syncFiles_clears_field_witness :
    SyncFilesWrite.clearIntercomToAsana
      ∈ (syncFiles (some "T1") true
          ⟨some "g1", .fileList [⟨some "http://files.example/a.png"⟩]⟩
          (fun _ => none) (Except.error "network failure") (Except.ok true)).2
    ∧ (syncFiles (some "T1") true
          ⟨some "g1", .fileList [⟨some "http://files.example/a.png"⟩]⟩
          (fun _ => none) (Except.error "network failure") (Except.ok true)).2
        = [.uploadAttachment "http://files.example/a.png", .clearIntercomToAsana] :=
  ⟨(syncFiles_clears_field "T1" true
      ⟨some "g1", .fileList [⟨some "http://files.example/a.png"⟩]⟩
      (fun _ => none) (Except.error "network failure") (Except.ok true)
      (by decide) (by decide) rfl).1 (fun i => rfl),
   by decide⟩

